import Mathlib

/-!
Shallow embedding of the trajectory-prediction core of the repository:
`src/football-2d/utils/customTrajectoryPredictor.ts` (custom simulator,
benchmark), the default predictor / interception analyzer
(`trajectoryPredictor.ts`), the wrapper (`trajectoryPredictorWrapper.ts`)
and the validator (`customAlgorithm.ts`).

Numeric model: JavaScript numbers are idealised as exact rationals.  A
value of type `JsNum := Option ℚ` is `some q` for an ordinary number and
`none` for the result of undefined/NaN arithmetic (e.g. reading a missing
array index and computing with it).  Arithmetic propagates `none`;
comparisons with `none` are `false`, exactly as `NaN` comparisons are
`false` in JavaScript.  `Math.sqrt` appears in the source only (a) inside
comparisons, which are translated exactly by squaring (for `d ≥ 0` and
`c > 0`, `Math.sqrt d < c ↔ d < c ^ 2`, and so on), and (b) as a stored
value (`requiredSpeed`) or an argument of a custom friction model, where
it is kept abstract as a field of `RealFns`; every theorem below is
independent of that interpretation.
-/

namespace MxEgg

/-- JavaScript number: `some q` is an ordinary number, `none` is NaN
(undefined-arithmetic result). -/
abbrev JsNum := Option ℚ

/-- JavaScript `+` (NaN-propagating). -/
def jadd : JsNum → JsNum → JsNum
  | some a, some b => some (a + b)
  | _, _ => none

/-- JavaScript `*` (NaN-propagating). -/
def jmul : JsNum → JsNum → JsNum
  | some a, some b => some (a * b)
  | _, _ => none

/-- JavaScript `-` (NaN-propagating). -/
def jsub : JsNum → JsNum → JsNum
  | some a, some b => some (a - b)
  | _, _ => none

/-- JavaScript `<`: comparisons involving NaN are false. -/
def jltB : JsNum → JsNum → Bool
  | some a, some b => decide (a < b)
  | _, _ => false

/-- JavaScript `<=`: comparisons involving NaN are false. -/
def jleB : JsNum → JsNum → Bool
  | some a, some b => decide (a ≤ b)
  | _, _ => false

/-- JavaScript `Math.min` (NaN-propagating). -/
def jmin : JsNum → JsNum → JsNum
  | some a, some b => some (min a b)
  | _, _ => none

/-- JavaScript `Math.max` (NaN-propagating). -/
def jmax : JsNum → JsNum → JsNum
  | some a, some b => some (max a b)
  | _, _ => none

/-- Exact translation of `Math.sqrt d < c` for `d` a sum of squares
(so `d ≥ 0` whenever it is a number): for a number `c`,
`Math.sqrt d < c ↔ 0 < c ∧ d < c ^ 2`; any NaN operand gives `false`. -/
def jsqrtLt : JsNum → JsNum → Bool
  | some d, some c => decide (0 < c ∧ d < c ^ 2)
  | _, _ => false

/-- Exact translation of `Math.sqrt d <= c` for `d` a sum of squares:
`Math.sqrt d ≤ c ↔ 0 ≤ c ∧ d ≤ c ^ 2`; NaN gives `false`. -/
def jsqrtLe (d : JsNum) (c : ℚ) : Bool :=
  match d with
  | some d => decide (0 ≤ c ∧ d ≤ c ^ 2)
  | none => false

/-- Exact translation of `Math.sqrt d > c` for `d` a sum of squares:
`Math.sqrt d > c ↔ c < 0 ∨ c ^ 2 < d`; NaN gives `false`. -/
def jsqrtGt (d : JsNum) (c : ℚ) : Bool :=
  match d with
  | some d => decide (c < 0 ∨ c ^ 2 < d)
  | none => false

/-- Exact translation of `Math.sqrt d / t <= m` for `d` a sum of squares.
For `t > 0` it is `0 ≤ m * t ∧ d ≤ (m * t) ^ 2`.  For `t = 0` JavaScript
produces `Infinity` (or NaN when `d = 0`), and the comparison with a
number `m` is false.  For `t < 0` the quotient is `≤ 0`, and dividing the
inequality by `t` flips it: `Math.sqrt d ≥ m * t ↔ m * t ≤ 0 ∨ (m * t) ^ 2 ≤ d`.
A NaN `d` gives `false`. -/
def jdivSqrtLe (d : JsNum) (t m : ℚ) : Bool :=
  match d with
  | none => false
  | some d =>
    if 0 < t then decide (0 ≤ m * t ∧ d ≤ (m * t) ^ 2)
    else if t = 0 then false
    else decide (m * t ≤ 0 ∨ (m * t) ^ 2 ≤ d)

/-- Abstract interpretations of `Math.sqrt` and `Math.exp` as the values
stored or fed to custom friction models.  All theorems below hold for
every interpretation. -/
structure RealFns where
  sqrt : ℚ → ℚ
  exp : ℚ → ℚ

/-- `Math.sqrt` as a value (NaN-propagating); applied only to sums of
squares in the source. -/
def jsqrtV (fns : RealFns) : JsNum → JsNum :=
  Option.map fns.sqrt

/-- Division of a JavaScript number by a plain number.  Division by zero
produces `Infinity`/NaN in JavaScript; it is modelled as `none` and only
ever flows into stored fields (`requiredSpeed`, `confidence`), never into
a comparison a theorem depends on. -/
def jdivQ (a : JsNum) (q : ℚ) : JsNum :=
  if q = 0 then none else a.map (fun x => x / q)

/-- A fixed interpretation for closed (counter)example runs.  None of the
runs below ever evaluate a custom friction model that consumes the value
of a square root, nor inspect a sqrt-derived field, so any choice gives
the same observed components. -/
def anyFns : RealFns := ⟨fun q => q, fun q => q⟩

/-! Data model, from `trajectoryPredictor.ts` / `customAlgorithm.ts`. -/

/-- Field width constant (both predictors). -/
def FIELD_WIDTH : ℚ := 1000

/-- Field height constant (both predictors). -/
def FIELD_HEIGHT : ℚ := 600

/-- Default simulator base friction. -/
def BASE_FRICTION : ℚ := 0.94

/-- One sampled state along a simulated path.  `velocity: {vx, vy}` is
flattened into the two fields `vx`, `vy`. -/
structure TrajectoryPoint where
  x : JsNum
  y : JsNum
  t : ℚ
  vx : JsNum
  vy : JsNum
deriving DecidableEq

/-- Result of a prediction call; `landingPosition` is declared nullable in
the source (`Position | null`). -/
structure BallTrajectory where
  currentPosition : JsNum × JsNum
  predictedPath : List TrajectoryPoint
  landingPosition : Option (JsNum × JsNum)
  timeToStop : ℚ
  willExitField : Bool
deriving DecidableEq

/-- Custom friction model kind (`customFriction.type`). -/
inductive FrictionType where
  | linear
  | quadratic
  | exponential
  | piecewise
deriving DecidableEq

/-- `customFriction` configuration; coefficients come from JSON, hence are
plain numbers, but may be too few (missing indices read as `undefined`). -/
structure CustomFriction where
  type : FrictionType
  coefficients : List ℚ
deriving DecidableEq

/-- One surface friction zone. -/
structure FrictionZone where
  x1 : ℚ
  y1 : ℚ
  x2 : ℚ
  y2 : ℚ
  frictionMultiplier : ℚ
deriving DecidableEq

/-- Optional environment effects. -/
structure Environment where
  windEnabled : Bool
  windVx : Option ℚ
  windVy : Option ℚ
  surfaceFrictionZones : Option (List FrictionZone)
deriving DecidableEq

/-- Core numeric parameters of a profile. -/
structure Parameters where
  friction : ℚ
  timeStep : ℚ
  maxPredictionTime : ℚ
  bounceEnergyLoss : ℚ
  stopThreshold : ℚ
deriving DecidableEq

/-- A custom algorithm profile.  The identification strings and
`metadata`/`ballPhysics` blocks are never read by the simulator and are
kept only where the validator needs them (see `Candidate` below). -/
structure CustomAlgorithmDefinition where
  parameters : Parameters
  customFriction : Option CustomFriction
  environment : Option Environment
deriving DecidableEq

/-- `calculateCustomFriction` from `customTrajectoryPredictor.ts`.  The
`velocity` argument is passed as its square `speedSq` so that the
piecewise threshold comparisons are translated exactly; the linear and
exponential models consume the value of the square root through `fns`.
A missing coefficient (`coefficients[i]` beyond the list) is `undefined`
in JavaScript: arithmetic with it yields NaN (`none`) and comparisons with
it are false, which the `JsNum` operations reproduce.  The guarded reads
`coefficients[1] || 0` default to `0`. -/
def calculateCustomFriction (fns : RealFns) (speedSq : JsNum)
    (config : CustomFriction) : JsNum :=
  let c := config.coefficients
  match config.type with
  | .linear => jadd (c.get? 0) (jmul (some (c.getD 1 0)) (jsqrtV fns speedSq))
  | .quadratic => jadd (c.get? 0) (jmul (some (c.getD 1 0)) speedSq)
  | .exponential =>
      jmul (c.get? 0)
        (Option.map fns.exp (jmul (some (-(c.getD 1 0))) (jsqrtV fns speedSq)))
  | .piecewise =>
      if jsqrtLt speedSq (c.get? 3) then c.get? 0
      else if jsqrtLt speedSq (c.get? 4) then c.get? 1
      else c.get? 2

/-- Zone membership test of `getSurfaceFrictionMultiplier` (all four
comparisons must hold; NaN coordinates match no zone). -/
def zoneContains (x y : JsNum) (z : FrictionZone) : Bool :=
  jleB (some z.x1) x && jleB x (some z.x2) && jleB (some z.y1) y && jleB y (some z.y2)

/-- `getSurfaceFrictionMultiplier`: first matching zone wins, default 1. -/
def getSurfaceFrictionMultiplier (x y : JsNum) :
    Option (List FrictionZone) → ℚ
  | none => 1
  | some zones =>
    match zones.find? (zoneContains x y) with
    | some z => z.frictionMultiplier
    | none => 1

/-- Mutable state of the simulation loop, with the produced path and the
`willExitField` flag threaded through. -/
structure SimState where
  x : JsNum
  y : JsNum
  vx : JsNum
  vy : JsNum
  t : ℚ
  willExitField : Bool
  path : List TrajectoryPoint
deriving DecidableEq

/-- `vx * vx + vy * vy`, the square of the speed read at the top of the
custom loop (and at the bottom of the default loop). -/
def speedSq (vx vy : JsNum) : JsNum :=
  jadd (jmul vx vx) (jmul vy vy)

/-- Velocity after the friction and wind updates of one custom-simulator
step (the value that is then added to the position). -/
def stepVelocity (fns : RealFns) (alg : CustomAlgorithmDefinition)
    (s : SimState) : JsNum × JsNum :=
  let fc0 :=
    match alg.customFriction with
    | some cfg => calculateCustomFriction fns (speedSq s.vx s.vy) cfg
    | none => some alg.parameters.friction
  let surf := getSurfaceFrictionMultiplier s.x s.y
    (alg.environment.bind (fun e => e.surfaceFrictionZones))
  let fc := jmul fc0 (some surf)
  let vx1 := jmul s.vx fc
  let vy1 := jmul s.vy fc
  match alg.environment with
  | some e =>
    if e.windEnabled && e.windVx.isSome && e.windVy.isSome then
      (jadd vx1 (jmul e.windVx (some alg.parameters.timeStep)),
       jadd vy1 (jmul e.windVy (some alg.parameters.timeStep)))
    else (vx1, vy1)
  | none => (vx1, vy1)

/-- One-axis bounce of the custom simulator: on a crossing, reflect and
scale the velocity by `-bounceEnergyLoss`, clamp the position into
`[0, bound]`, and raise the exit flag when the clamped position sits on a
boundary (`x <= 0 || x >= bound`). -/
def bounceAxis (bound bounce : ℚ) (pos vel : JsNum) (flag : Bool) :
    JsNum × JsNum × Bool :=
  if jltB pos (some 0) || jltB (some bound) pos then
    let v := jmul vel (some (-bounce))
    let p := jmax (some 0) (jmin (some bound) pos)
    (p, v, flag || (jleB p (some 0) || jleB (some bound) p))
  else (pos, vel, flag)

/-- One iteration of the `predictBallTrajectoryCustom` loop: speed,
friction, wind, position update, bounces, point recording, time advance. -/
def stepCustom (fns : RealFns) (alg : CustomAlgorithmDefinition)
    (s : SimState) : SimState :=
  let v1 := stepVelocity fns alg s
  let x1 := jadd s.x v1.1
  let y1 := jadd s.y v1.2
  let bx := bounceAxis FIELD_WIDTH alg.parameters.bounceEnergyLoss x1 v1.1 s.willExitField
  let by' := bounceAxis FIELD_HEIGHT alg.parameters.bounceEnergyLoss y1 v1.2 bx.2.2
  { x := bx.1, y := by'.1, vx := bx.2.1, vy := by'.2.1,
    t := s.t + alg.parameters.timeStep,
    willExitField := by'.2.2,
    path := s.path ++ [⟨bx.1, by'.1, s.t + alg.parameters.timeStep, bx.2.1, by'.2.1⟩] }

/-- The `while (t < maxTime)` loop of `predictBallTrajectoryCustom`,
with explicit fuel.  The stop test reads the speed computed at the top of
the iteration (before friction), matching the source; the recorded point
of the final iteration is kept. -/
def runCustom (fns : RealFns) (alg : CustomAlgorithmDefinition) :
    ℕ → SimState → SimState
  | 0, s => s
  | fuel + 1, s =>
    if s.t < alg.parameters.maxPredictionTime then
      let s1 := stepCustom fns alg s
      if jsqrtLt (speedSq s.vx s.vy) (some alg.parameters.stopThreshold) then s1
      else runCustom fns alg fuel s1
    else s

/-- Number of iterations the `while (t < maxTime)` loop can execute with
`t = i * timeStep`: exactly the `i` with `i * timeStep < maxTime`, of
which there are `⌈maxTime / timeStep⌉` when `timeStep > 0`.  The loop
condition is still re-checked inside `runCustom`, so any surplus fuel is
inert. -/
def customFuel (alg : CustomAlgorithmDefinition) : ℕ :=
  (Rat.ceil (alg.parameters.maxPredictionTime / alg.parameters.timeStep)).toNat

/-- `predictBallTrajectoryCustom` from `customTrajectoryPredictor.ts`.
The final `lastPoint = path[path.length - 1] || {x: ballX, y: ballY, t: 0}`
fallback becomes the match on `getLast?`. -/
def predictBallTrajectoryCustom (fns : RealFns)
    (alg : CustomAlgorithmDefinition) (ballX ballY ballVx ballVy : JsNum) :
    BallTrajectory :=
  let s := runCustom fns alg (customFuel alg)
    ⟨ballX, ballY, ballVx, ballVy, 0, false, []⟩
  match s.path.getLast? with
  | some p =>
    { currentPosition := (ballX, ballY), predictedPath := s.path,
      landingPosition := some (p.x, p.y), timeToStop := p.t,
      willExitField := s.willExitField }
  | none =>
    { currentPosition := (ballX, ballY), predictedPath := s.path,
      landingPosition := some (ballX, ballY), timeToStop := 0,
      willExitField := s.willExitField }

/-! Default predictor, from `trajectoryPredictor.ts` (`predictBallTrajectory`). -/

/-- One iteration of the default `predictBallTrajectory` loop: constant
base friction, position update, bounce with the hard-coded `-0.8` factor
and clamp (no exit-flag bookkeeping inside the loop), point recording. -/
def stepDefault (timeStep : ℚ) (s : SimState) : SimState :=
  let vx1 := jmul s.vx (some BASE_FRICTION)
  let vy1 := jmul s.vy (some BASE_FRICTION)
  let x1 := jadd s.x vx1
  let y1 := jadd s.y vy1
  let px :=
    if jltB x1 (some 0) || jltB (some FIELD_WIDTH) x1 then
      (jmax (some 0) (jmin (some FIELD_WIDTH) x1), jmul vx1 (some (-0.8)))
    else (x1, vx1)
  let py :=
    if jltB y1 (some 0) || jltB (some FIELD_HEIGHT) y1 then
      (jmax (some 0) (jmin (some FIELD_HEIGHT) y1), jmul vy1 (some (-0.8)))
    else (y1, vy1)
  { x := px.1, y := py.1, vx := px.2, vy := py.2,
    t := s.t + timeStep,
    willExitField := s.willExitField,
    path := s.path ++ [⟨px.1, py.1, s.t + timeStep, px.2, py.2⟩] }

/-- The `while (t < predictionTime)` loop of the default predictor.  Its
stop test reads the speed at the bottom of the iteration, from the
post-friction post-bounce velocity, against the hard-coded `0.5`. -/
def runDefault (predictionTime timeStep : ℚ) : ℕ → SimState → SimState
  | 0, s => s
  | fuel + 1, s =>
    if s.t < predictionTime then
      let s1 := stepDefault timeStep s
      if jsqrtLt (speedSq s1.vx s1.vy) (some 0.5) then s1
      else runDefault predictionTime timeStep fuel s1
    else s

/-- `predictBallTrajectory` from `trajectoryPredictor.ts`.  After the
loop, `willExitField` is recomputed from the final position only
(`x < 0 || x > FIELD_WIDTH || y < 0 || y > FIELD_HEIGHT`). -/
def predictBallTrajectoryDefault (ballX ballY ballVx ballVy : JsNum)
    (predictionTime timeStep : ℚ) : BallTrajectory :=
  let s := runDefault predictionTime timeStep
    ((Rat.ceil (predictionTime / timeStep)).toNat)
    ⟨ballX, ballY, ballVx, ballVy, 0, false, []⟩
  let willExit := jltB s.x (some 0) || jltB (some FIELD_WIDTH) s.x ||
    jltB s.y (some 0) || jltB (some FIELD_HEIGHT) s.y
  match s.path.getLast? with
  | some p =>
    { currentPosition := (ballX, ballY), predictedPath := s.path,
      landingPosition := some (p.x, p.y), timeToStop := p.t,
      willExitField := willExit }
  | none =>
    { currentPosition := (ballX, ballY), predictedPath := s.path,
      landingPosition := some (ballX, ballY), timeToStop := 0,
      willExitField := willExit }

/-- `predictBallTrajectory` from `trajectoryPredictorWrapper.ts`: use the
stored custom algorithm when present, otherwise the default.  The
source's `try`/`catch` fallback branch is unreachable: the custom
predictor contains no throwing operation (its only failure mode is NaN
propagation, which returns normally), so the embedding is a plain match. -/
def predictBallTrajectoryWrapper (fns : RealFns)
    (customAlgo : Option CustomAlgorithmDefinition)
    (ballX ballY ballVx ballVy : JsNum) (predictionTime timeStep : ℚ) :
    BallTrajectory :=
  match customAlgo with
  | some alg => predictBallTrajectoryCustom fns alg ballX ballY ballVx ballVy
  | none => predictBallTrajectoryDefault ballX ballY ballVx ballVy predictionTime timeStep

/-! Interception analyzer, from `trajectoryPredictor.ts`
(`analyzeInterception`). -/

/-- Result record of `analyzeInterception`.  The nullable fields are
`Option`; `requiredSpeed` is a nullable JavaScript number, hence
`Option JsNum`. -/
structure InterceptionAnalysis where
  isPossible : Bool
  interceptPoint : Option (JsNum × JsNum)
  timeToReach : Option ℚ
  requiredSpeed : Option JsNum
  confidence : JsNum
deriving DecidableEq

/-- Capture radius constant (`INTERCEPT_RADIUS`). -/
def INTERCEPT_RADIUS : ℚ := 15

/-- Squared Euclidean distance from the player to a (possibly NaN)
point. -/
def distSqTo (playerX playerY : ℚ) (x y : JsNum) : JsNum :=
  jadd (jmul (jsub x (some playerX)) (jsub x (some playerX)))
    (jmul (jsub y (some playerY)) (jsub y (some playerY)))

/-- The loop condition of `analyzeInterception`:
`requiredSpeed <= playerMaxSpeed && distance > INTERCEPT_RADIUS`, with
`requiredSpeed = distance / point.t`, translated exactly (see
`jdivSqrtLe`, `jsqrtGt`). -/
def interceptCond (playerX playerY playerMaxSpeed : ℚ)
    (p : TrajectoryPoint) : Bool :=
  jdivSqrtLe (distSqTo playerX playerY p.x p.y) p.t playerMaxSpeed &&
    jsqrtGt (distSqTo playerX playerY p.x p.y) INTERCEPT_RADIUS

/-- The analysis record built for a qualifying point. -/
def mkScanAnalysis (fns : RealFns) (playerX playerY playerMaxSpeed : ℚ)
    (p : TrajectoryPoint) : InterceptionAnalysis :=
  let rs := jdivQ (jsqrtV fns (distSqTo playerX playerY p.x p.y)) p.t
  { isPossible := true, interceptPoint := some (p.x, p.y),
    timeToReach := some p.t, requiredSpeed := some rs,
    confidence := jmax (some 0) (jsub (some 1) (jdivQ rs playerMaxSpeed)) }

/-- The `for (const point of ballTrajectory.predictedPath)` scan: the
first qualifying point returns its analysis. -/
def interceptScan (fns : RealFns) (playerX playerY playerMaxSpeed : ℚ) :
    List TrajectoryPoint → Option InterceptionAnalysis
  | [] => none
  | p :: rest =>
    if interceptCond playerX playerY playerMaxSpeed p then
      some (mkScanAnalysis fns playerX playerY playerMaxSpeed p)
    else interceptScan fns playerX playerY playerMaxSpeed rest

/-- `analyzeInterception`: scan the trajectory first; only when no point
qualifies, test the capture radius against the *current* ball position
and return the immediate interception, else the infeasible record. -/
def analyzeInterception (fns : RealFns)
    (playerX playerY playerMaxSpeed : ℚ) (bt : BallTrajectory) :
    InterceptionAnalysis :=
  match interceptScan fns playerX playerY playerMaxSpeed bt.predictedPath with
  | some a => a
  | none =>
    let cd := distSqTo playerX playerY bt.currentPosition.1 bt.currentPosition.2
    if jsqrtLe cd INTERCEPT_RADIUS then
      { isPossible := true, interceptPoint := some bt.currentPosition,
        timeToReach := some 0, requiredSpeed := some (some 0),
        confidence := some 1 }
    else
      { isPossible := false, interceptPoint := none, timeToReach := none,
        requiredSpeed := none, confidence := some 0 }

/-! Validator, from `customAlgorithm.ts` (`validateAlgorithm`).  The
untyped JSON argument is modelled structurally: a field that is absent or
not of the tested type is `none` (for the string fields, a present empty
string is also rejected by the `!json.name` truthiness test); `metadata`
only has its presence tested. -/

/-- The `parameters` block of a candidate JSON document. -/
structure CandidateParameters where
  friction : Option ℚ
  timeStep : Option ℚ
  maxPredictionTime : Option ℚ
  bounceEnergyLoss : Option ℚ
  stopThreshold : Option ℚ
deriving DecidableEq

/-- A candidate JSON document, restricted to the fields the validator
reads. -/
structure Candidate where
  name : Option String
  version : Option String
  author : Option String
  parameters : Option CandidateParameters
  metadata : Bool
deriving DecidableEq

/-- Validation outcome. -/
structure ValidationResult where
  valid : Bool
  errors : List String
deriving DecidableEq

/-- `!json.name || typeof json.name !== 'string'`: missing, non-string or
empty (falsy) string fails. -/
def strFieldBad : Option String → Bool
  | none => true
  | some s => s = ""

/-- `typeof p.friction !== 'number' || p.friction < 0 || p.friction > 1`. -/
def frictionBad : Option ℚ → Bool
  | none => true
  | some f => decide (f < 0 ∨ 1 < f)

/-- `typeof p.timeStep !== 'number' || p.timeStep <= 0 || p.timeStep > 1`. -/
def timeStepBad : Option ℚ → Bool
  | none => true
  | some v => decide (v ≤ 0 ∨ 1 < v)

/-- `typeof p.maxPredictionTime !== 'number' || p.maxPredictionTime <= 0`. -/
def maxPredictionTimeBad : Option ℚ → Bool
  | none => true
  | some v => decide (v ≤ 0)

/-- `typeof p.bounceEnergyLoss !== 'number' || < 0 || > 1`. -/
def bounceEnergyLossBad : Option ℚ → Bool
  | none => true
  | some v => decide (v < 0 ∨ 1 < v)

/-- `typeof p.stopThreshold !== 'number' || p.stopThreshold < 0`. -/
def stopThresholdBad : Option ℚ → Bool
  | none => true
  | some v => decide (v < 0)

/-- `validateAlgorithm`: every check appends its own message to `errors`
in source order; `valid` is `errors.length === 0`. -/
def validateAlgorithm (j : Candidate) : ValidationResult :=
  let errors :=
    (if strFieldBad j.name then ["Missing or invalid \"name\" field"] else []) ++
    (if strFieldBad j.version then ["Missing or invalid \"version\" field"] else []) ++
    (if strFieldBad j.author then ["Missing or invalid \"author\" field"] else []) ++
    (match j.parameters with
     | none => ["Missing \"parameters\" object"]
     | some p =>
       (if frictionBad p.friction then ["Invalid friction (must be 0-1)"] else []) ++
       (if timeStepBad p.timeStep then ["Invalid timeStep (must be 0-1)"] else []) ++
       (if maxPredictionTimeBad p.maxPredictionTime then ["Invalid maxPredictionTime (must be > 0)"] else []) ++
       (if bounceEnergyLossBad p.bounceEnergyLoss then ["Invalid bounceEnergyLoss (must be 0-1)"] else []) ++
       (if stopThresholdBad p.stopThreshold then ["Invalid stopThreshold (must be >= 0)"] else [])) ++
    (if j.metadata then [] else ["Missing \"metadata\" object"])
  { valid := errors.isEmpty, errors := errors }

/-- The validation rules as individual pass/fail bits, in source order
(spec: one human-readable error entry per failed rule, no
short-circuiting).  When the `parameters` object is missing it counts as
one failed rule, replacing the five numeric rules, as in the source. -/
def ruleFailures (j : Candidate) : List Bool :=
  [strFieldBad j.name, strFieldBad j.version, strFieldBad j.author] ++
  (match j.parameters with
   | none => [true]
   | some p =>
     [frictionBad p.friction, timeStepBad p.timeStep,
      maxPredictionTimeBad p.maxPredictionTime,
      bounceEnergyLossBad p.bounceEnergyLoss,
      stopThresholdBad p.stopThreshold]) ++
  [!j.metadata]

/-! Claim-side predicates and concrete scenario data. -/

/-- A recorded point's position is a number lying inside
`[0, FIELD_WIDTH] × [0, FIELD_HEIGHT]` (a NaN coordinate is not inside
the field). -/
def inFieldB (p : TrajectoryPoint) : Bool :=
  match p.x, p.y with
  | some qx, some qy =>
    decide (0 ≤ qx ∧ qx ≤ FIELD_WIDTH ∧ 0 ≤ qy ∧ qy ≤ FIELD_HEIGHT)
  | _, _ => false

/-- All four kinematic components of a state are numbers (no NaN). -/
def allSome (s : SimState) : Prop :=
  s.x.isSome ∧ s.y.isSome ∧ s.vx.isSome ∧ s.vy.isSome

/-- The custom friction model, when present, has enough coefficients for
its friction evaluation to produce a number: at least one coefficient,
and at least three for `piecewise` (all of `c[0]`, `c[1]`, `c[2]` must
exist; the thresholds `c[3]`, `c[4]` may be missing, their comparisons
are then false). -/
def frictionTotalB : Option CustomFriction → Bool
  | none => true
  | some cfg =>
    match cfg.type with
    | .piecewise => decide (3 ≤ cfg.coefficients.length)
    | _ => decide (1 ≤ cfg.coefficients.length)

/-- Scenario A profile: `friction = 0.5`, `timeStep = 1`,
`stopThreshold = 0.4`, large horizon, no custom friction, no
environment. -/
def algScenarioA : CustomAlgorithmDefinition :=
  { parameters := { friction := 1/2, timeStep := 1, maxPredictionTime := 100,
                    bounceEnergyLoss := 1/2, stopThreshold := 2/5 },
    customFriction := none, environment := none }

/-- Scenario B profile: per-step friction coefficient 1,
`bounceEnergyLoss = 0.8`. -/
def algScenarioB : CustomAlgorithmDefinition :=
  { parameters := { friction := 1, timeStep := 1, maxPredictionTime := 1,
                    bounceEnergyLoss := 4/5, stopThreshold := 0 },
    customFriction := none, environment := none }

/-- A profile whose `customFriction.type` is `piecewise` with only two
coefficients supplied; `coefficients[2]` is `undefined`, so friction
evaluation yields NaN. -/
def algPiecewiseTwo : CustomAlgorithmDefinition :=
  { parameters := { friction := 1/2, timeStep := 1/10, maxPredictionTime := 1/10,
                    bounceEnergyLoss := 1/2, stopThreshold := 1/100 },
    customFriction := some { type := .piecewise, coefficients := [1/2, 1/2] },
    environment := none }

/-- The candidate JSON document corresponding to `algPiecewiseTwo`
(validation never inspects `customFriction`). -/
def candPiecewiseTwo : Candidate :=
  { name := some "Piecewise Two", version := some "1.0.0",
    author := some "Lab",
    parameters := some { friction := some (1/2), timeStep := some (1/10),
                         maxPredictionTime := some (1/10),
                         bounceEnergyLoss := some (1/2),
                         stopThreshold := some (1/100) },
    metadata := true }

/-- Candidate with `friction = 1.5` and `timeStep = 0`, all other fields
valid. -/
def candBadFrictionTimeStep : Candidate :=
  { name := some "Test", version := some "1.0.0", author := some "Lab",
    parameters := some { friction := some (3/2), timeStep := some 0,
                         maxPredictionTime := some 4,
                         bounceEnergyLoss := some (3/4),
                         stopThreshold := some (3/10) },
    metadata := true }

/-- Trajectory for the C4 counterexample: the ball currently sits on the
agent (distance 0 ≤ capture radius) while the path offers a qualifying
far point at `(30, 40)`, `t = 10`. -/
def btNearAgent : BallTrajectory :=
  { currentPosition := (some 0, some 0),
    predictedPath := [⟨some 30, some 40, 10, some 0, some 0⟩],
    landingPosition := some (some 30, some 40), timeToStop := 10,
    willExitField := false }

/-- Scenario C trajectory: current position far from the origin agent,
one sampled point at `(30, 40)` with `t = 10`. -/
def btScenarioC : BallTrajectory :=
  { currentPosition := (some 200, some 200),
    predictedPath := [⟨some 30, some 40, 10, some 0, some 0⟩],
    landingPosition := some (some 30, some 40), timeToStop := 10,
    willExitField := false }

/-- A square-root interpretation that is exact on the only value Scenario
C evaluates (`sqrt 2500 = 50`). -/
def sqrtScenarioC : RealFns :=
  ⟨fun q => if q = 2500 then 50 else 0, fun q => q⟩

/-- A trajectory with an empty sampled path whose current position is
within the capture radius of the origin agent (distance 5). -/
def btEmptyNear : BallTrajectory :=
  { currentPosition := (some 3, some 4), predictedPath := [],
    landingPosition := none, timeToStop := 0, willExitField := false }

/-! Theorems.  The `Rat` arithmetic operations are `@[irreducible]` in
the library for performance of the elaborator; concrete runs are settled
by `decide`, which the local attribute below re-enables (the kernel
ignores reducibility attributes, so checked proofs are unaffected). -/

attribute [local semireducible] Rat.mul Rat.add Rat.sub Rat.inv Rat.ofScientific

/-- When a profile has no custom friction model, the simulation never
consults the abstract square-root / exponential interpretations. -/
theorem runCustom_fns_irrel (fns fns' : RealFns)
    (alg : CustomAlgorithmDefinition) (h : alg.customFriction = none) :
    ∀ fuel s, runCustom fns alg fuel s = runCustom fns' alg fuel s := by
  intro fuel
  induction fuel with
  | zero => intro s; rfl
  | succ n ih =>
    intro s
    simp only [runCustom, stepCustom, stepVelocity, h]
    split
    · split
      · rfl
      · exact ih _
    · rfl

/-- Interpretation-independence of the whole prediction for profiles
without custom friction. -/
theorem predict_fns_irrel (fns fns' : RealFns)
    (alg : CustomAlgorithmDefinition) (h : alg.customFriction = none)
    (a b c d : JsNum) :
    predictBallTrajectoryCustom fns alg a b c d =
      predictBallTrajectoryCustom fns' alg a b c d := by
  simp only [predictBallTrajectoryCustom, runCustom_fns_irrel fns fns' alg h]

/-- C1: under the Scenario A profile (friction 0.5, no custom friction,
no environment, stop threshold 0.4, time step 1 s, horizon 100 s) from a
start far from the bounds with velocity (10, 0), the run records exactly
6 points; the speed read at the top of step `i` is `10 / 2 ^ i`
(10, 5, 2.5, 1.25, 0.625, 0.3125) — the initial speed followed by the
recorded speeds of the first five points — after which the loop stops. -/
theorem scenarioA_speeds_and_points (fns : RealFns) :
    (predictBallTrajectoryCustom fns algScenarioA
        (some 100) (some 300) (some 10) (some 0)).predictedPath.length = 6 ∧
    (predictBallTrajectoryCustom fns algScenarioA
        (some 100) (some 300) (some 10) (some 0)).predictedPath.map
          (fun p => (p.vx, p.vy)) =
      [(some 5, some 0), (some (5/2), some 0), (some (5/4), some 0),
       (some (5/8), some 0), (some (5/16), some 0), (some (5/32), some 0)] ∧
    some 10 :: ((predictBallTrajectoryCustom fns algScenarioA
        (some 100) (some 300) (some 10) (some 0)).predictedPath.dropLast.map
          (fun p => p.vx)) =
      [some 10, some 5, some (5/2), some (5/4), some (5/8), some (5/16)] := by
  rw [predict_fns_irrel fns anyFns algScenarioA rfl]
  decide

/-- C3: Scenario B — ball at `x = 998` (2 units from the right boundary),
velocity `(+8, 0)`, friction coefficient 1, `bounceEnergyLoss = 0.8`: the
step that crosses the boundary records `x` clamped exactly to 1000 and
`vx = -8 · 0.8 = -6.4`. -/
theorem scenarioB_bounce (fns : RealFns) :
    (predictBallTrajectoryCustom fns algScenarioB
        (some 998) (some 300) (some 8) (some 0)).predictedPath =
      [⟨some 1000, some 300, 1, some (-(32/5)), some 0⟩] := by
  rw [predict_fns_irrel fns anyFns algScenarioB rfl]
  decide

/-- On a crossing, the bounced velocity is the moved velocity scaled by
`-bounce`. -/
theorem bounceAxis_vel_of_cross (bound bounce : ℚ) (pos vel : JsNum)
    (flag : Bool)
    (h : (jltB pos (some 0) || jltB (some bound) pos) = true) :
    (bounceAxis bound bounce pos vel flag).2.1 = jmul vel (some (-bounce)) := by
  simp only [bounceAxis, h, if_true]

/-- Crossing below zero clamps the position to the low boundary. -/
theorem bounceAxis_pos_of_low (bound bounce : ℚ) (pos vel : JsNum)
    (flag : Bool) (hb : 0 ≤ bound) (h : jltB pos (some 0) = true) :
    (bounceAxis bound bounce pos vel flag).1 = some 0 := by
  match pos with
  | none => simp [jltB] at h
  | some a =>
    simp only [jltB, decide_eq_true_eq] at h
    have hc : (jltB (some a) (some 0) || jltB (some bound) (some a)) = true := by
      simp [jltB, h]
    simp only [bounceAxis, hc, if_true, jmin, jmax]
    have h1 : min bound a = a := min_eq_right (le_of_lt (lt_of_lt_of_le h hb))
    have h2 : max 0 a = 0 := max_eq_left (le_of_lt h)
    rw [h1, h2]

/-- Crossing above the bound clamps the position to the high boundary. -/
theorem bounceAxis_pos_of_high (bound bounce : ℚ) (pos vel : JsNum)
    (flag : Bool) (hb : 0 ≤ bound) (h : jltB (some bound) pos = true) :
    (bounceAxis bound bounce pos vel flag).1 = some bound := by
  match pos with
  | none => simp [jltB] at h
  | some a =>
    simp only [jltB, decide_eq_true_eq] at h
    have hc : (jltB (some a) (some 0) || jltB (some bound) (some a)) = true := by
      simp [jltB, h]
    simp only [bounceAxis, hc, if_true, jmin, jmax]
    have h1 : min bound a = bound := min_eq_left (le_of_lt h)
    have h2 : max 0 bound = bound := max_eq_right hb
    rw [h1, h2]

/-- C2 (counterexample): in the Scenario B step the move crosses the
right boundary with step velocity 8 and `bounceEnergyLoss = 0.8`, and the
resulting x velocity is `-6.4`, of magnitude `0.8 · 8 = 6.4`; the
magnitude claimed by the specification, `(1 − 0.8) · 8 = 1.6`, is a
different number, so "multiplies its magnitude by (1 − bounceEnergyLoss)"
is false of the code. -/
theorem bounce_factor_cex :
    (stepVelocity anyFns algScenarioB
        ⟨some 998, some 300, some 8, some 0, 0, false, []⟩).1 = some 8 ∧
    jltB (some FIELD_WIDTH) (jadd (some 998) (some 8)) = true ∧
    (stepCustom anyFns algScenarioB
        ⟨some 998, some 300, some 8, some 0, 0, false, []⟩).vx = some (-(32/5)) ∧
    ¬ ((32 : ℚ)/5 =
        (1 - algScenarioB.parameters.bounceEnergyLoss) * 8) := by
  refine ⟨by decide, by decide, by decide, by decide⟩

/-- C2 (amended): whenever an integration step crosses a field boundary
on an axis, the simulator reflects that axis's step velocity and scales
its magnitude by `bounceEnergyLoss` itself (the new velocity is the moved
velocity times `-bounceEnergyLoss`), and clamps the position exactly to
the crossed boundary. -/
theorem bounce_reflects_scales_clamps (fns : RealFns)
    (alg : CustomAlgorithmDefinition) (s : SimState) :
    (((jltB (jadd s.x (stepVelocity fns alg s).1) (some 0) ||
        jltB (some FIELD_WIDTH) (jadd s.x (stepVelocity fns alg s).1)) = true) →
      (stepCustom fns alg s).vx =
        jmul (stepVelocity fns alg s).1
          (some (-alg.parameters.bounceEnergyLoss)) ∧
      (jltB (jadd s.x (stepVelocity fns alg s).1) (some 0) = true →
        (stepCustom fns alg s).x = some 0) ∧
      (jltB (some FIELD_WIDTH) (jadd s.x (stepVelocity fns alg s).1) = true →
        (stepCustom fns alg s).x = some FIELD_WIDTH)) ∧
    (((jltB (jadd s.y (stepVelocity fns alg s).2) (some 0) ||
        jltB (some FIELD_HEIGHT) (jadd s.y (stepVelocity fns alg s).2)) = true) →
      (stepCustom fns alg s).vy =
        jmul (stepVelocity fns alg s).2
          (some (-alg.parameters.bounceEnergyLoss)) ∧
      (jltB (jadd s.y (stepVelocity fns alg s).2) (some 0) = true →
        (stepCustom fns alg s).y = some 0) ∧
      (jltB (some FIELD_HEIGHT) (jadd s.y (stepVelocity fns alg s).2) = true →
        (stepCustom fns alg s).y = some FIELD_HEIGHT)) := by
  constructor
  · intro hc
    refine ⟨?_, ?_, ?_⟩
    · show (bounceAxis FIELD_WIDTH _ _ _ _).2.1 = _
      exact bounceAxis_vel_of_cross _ _ _ _ _ hc
    · intro h
      show (bounceAxis FIELD_WIDTH _ _ _ _).1 = _
      exact bounceAxis_pos_of_low _ _ _ _ _ (by norm_num [FIELD_WIDTH]) h
    · intro h
      show (bounceAxis FIELD_WIDTH _ _ _ _).1 = _
      exact bounceAxis_pos_of_high _ _ _ _ _ (by norm_num [FIELD_WIDTH]) h
  · intro hc
    refine ⟨?_, ?_, ?_⟩
    · show (bounceAxis FIELD_HEIGHT _ _ _ _).2.1 = _
      exact bounceAxis_vel_of_cross _ _ _ _ _ hc
    · intro h
      show (bounceAxis FIELD_HEIGHT _ _ _ _).1 = _
      exact bounceAxis_pos_of_low _ _ _ _ _ (by norm_num [FIELD_HEIGHT]) h
    · intro h
      show (bounceAxis FIELD_HEIGHT _ _ _ _).1 = _
      exact bounceAxis_pos_of_high _ _ _ _ _ (by norm_num [FIELD_HEIGHT]) h

/-- Witness for `bounce_reflects_scales_clamps` at the Scenario B state. -/
theorem bounce_reflects_scales_clamps_witness :
    (stepCustom anyFns algScenarioB
        ⟨some 998, some 300, some 8, some 0, 0, false, []⟩).vx =
      jmul (stepVelocity anyFns algScenarioB
          ⟨some 998, some 300, some 8, some 0, 0, false, []⟩).1
        (some (-algScenarioB.parameters.bounceEnergyLoss)) ∧
    (stepCustom anyFns algScenarioB
        ⟨some 998, some 300, some 8, some 0, 0, false, []⟩).x =
      some FIELD_WIDTH :=
  ⟨((bounce_reflects_scales_clamps anyFns algScenarioB
      ⟨some 998, some 300, some 8, some 0, 0, false, []⟩).1 (by decide)).1,
   ((bounce_reflects_scales_clamps anyFns algScenarioB
      ⟨some 998, some 300, some 8, some 0, 0, false, []⟩).1 (by decide)).2.2
      (by decide)⟩

/-- The per-axis bounce never clears the exit flag. -/
theorem bounceAxis_flag_mono (bound bounce : ℚ) (pos vel : JsNum)
    (flag : Bool) (h : flag = true) :
    (bounceAxis bound bounce pos vel flag).2.2 = true := by
  unfold bounceAxis
  split
  · simp [h]
  · exact h

/-- On a crossing whose clamped position sits on a boundary (the source
test `x <= 0 || x >= bound` applied to the clamped value), the per-axis
bounce raises the exit flag. -/
theorem bounceAxis_flag_set (bound bounce : ℚ) (pos vel : JsNum)
    (flag : Bool)
    (hcross : (jltB pos (some 0) || jltB (some bound) pos) = true)
    (hedge : (jleB (jmax (some 0) (jmin (some bound) pos)) (some 0) ||
      jleB (some bound) (jmax (some 0) (jmin (some bound) pos))) = true) :
    (bounceAxis bound bounce pos vel flag).2.2 = true := by
  simp only [bounceAxis, hcross, if_true, hedge, Bool.or_true]

/-- A step never clears the exit flag. -/
theorem stepCustom_flag_mono (fns : RealFns)
    (alg : CustomAlgorithmDefinition) (s : SimState)
    (h : s.willExitField = true) :
    (stepCustom fns alg s).willExitField = true := by
  exact bounceAxis_flag_mono _ _ _ _ _ (bounceAxis_flag_mono _ _ _ _ _ h)

/-- The loop never clears the exit flag. -/
theorem runCustom_flag_mono (fns : RealFns)
    (alg : CustomAlgorithmDefinition) :
    ∀ fuel s, s.willExitField = true →
      (runCustom fns alg fuel s).willExitField = true := by
  intro fuel
  induction fuel with
  | zero => intro s h; exact h
  | succ n ih =>
    intro s h
    unfold runCustom
    split
    · split
      · exact stepCustom_flag_mono fns alg s h
      · exact ih _ (stepCustom_flag_mono fns alg s h)
    · exact h

/-- C8 (counterexample, default simulator): from `x = 995` with velocity
`(10, 0)` and one 0.1 s step, the move reaches `995 + 9.4 = 1004.4`,
crossing the right boundary; the recorded point is clamped exactly to
`x = 1000`, yet the returned `willExitField` is `false`, because the
default predictor recomputes the flag from the final position only. -/
theorem default_willExitField_cex :
    jltB (some FIELD_WIDTH)
      (jadd (some 995) (jmul (some 10) (some BASE_FRICTION))) = true ∧
    (predictBallTrajectoryDefault (some 995) (some 300) (some 10) (some 0)
        (1/10) (1/10)).predictedPath =
      [⟨some 1000, some 300, 1/10, some (-(188/25)), some 0⟩] ∧
    (predictBallTrajectoryDefault (some 995) (some 300) (some 10) (some 0)
        (1/10) (1/10)).willExitField = false := by
  refine ⟨by decide, by decide, by decide⟩

/-- C8 (amended, custom simulator): whenever a step of the custom
simulator crosses a boundary and the clamped position sits exactly on a
boundary, the exit flag is raised by that step, is never cleared by later
steps, hence the run — and the returned trajectory, whose flag is the
final state's — reports `willExitField = true`. -/
theorem custom_willExitField_on_boundary (fns : RealFns)
    (alg : CustomAlgorithmDefinition) :
    (∀ s : SimState,
      (jltB (jadd s.x (stepVelocity fns alg s).1) (some 0) ||
        jltB (some FIELD_WIDTH) (jadd s.x (stepVelocity fns alg s).1)) = true →
      (jleB (jmax (some 0) (jmin (some FIELD_WIDTH)
          (jadd s.x (stepVelocity fns alg s).1))) (some 0) ||
        jleB (some FIELD_WIDTH) (jmax (some 0) (jmin (some FIELD_WIDTH)
          (jadd s.x (stepVelocity fns alg s).1)))) = true →
      (stepCustom fns alg s).willExitField = true) ∧
    (∀ s : SimState,
      (jltB (jadd s.y (stepVelocity fns alg s).2) (some 0) ||
        jltB (some FIELD_HEIGHT) (jadd s.y (stepVelocity fns alg s).2)) = true →
      (jleB (jmax (some 0) (jmin (some FIELD_HEIGHT)
          (jadd s.y (stepVelocity fns alg s).2))) (some 0) ||
        jleB (some FIELD_HEIGHT) (jmax (some 0) (jmin (some FIELD_HEIGHT)
          (jadd s.y (stepVelocity fns alg s).2)))) = true →
      (stepCustom fns alg s).willExitField = true) ∧
    (∀ fuel (s : SimState), s.willExitField = true →
      (runCustom fns alg fuel s).willExitField = true) ∧
    (∀ (a b c d : JsNum),
      (predictBallTrajectoryCustom fns alg a b c d).willExitField =
        (runCustom fns alg (customFuel alg)
          ⟨a, b, c, d, 0, false, []⟩).willExitField) := by
  refine ⟨?_, ?_, runCustom_flag_mono fns alg, ?_⟩
  · intro s hcross hedge
    exact bounceAxis_flag_mono _ _ _ _ _
      (bounceAxis_flag_set _ _ _ _ _ hcross hedge)
  · intro s hcross hedge
    exact bounceAxis_flag_set _ _ _ _ _ hcross hedge
  · intro a b c d
    unfold predictBallTrajectoryCustom
    dsimp only
    split <;> rfl

/-- Witness for `custom_willExitField_on_boundary` at the Scenario B
crossing state. -/
theorem custom_willExitField_on_boundary_witness :
    (stepCustom anyFns algScenarioB
        ⟨some 998, some 300, some 8, some 0, 0, false, []⟩).willExitField = true ∧
    (runCustom anyFns algScenarioB 3
        ⟨some 0, some 0, some 0, some 0, 99, true, []⟩).willExitField = true :=
  ⟨(custom_willExitField_on_boundary anyFns algScenarioB).1
      ⟨some 998, some 300, some 8, some 0, 0, false, []⟩ (by decide) (by decide),
   (custom_willExitField_on_boundary anyFns algScenarioB).2.2.1 3
      ⟨some 0, some 0, some 0, some 0, 99, true, []⟩ (by decide)⟩

/-- The trajectory scan is the analysis of the first point satisfying the
loop condition. -/
theorem interceptScan_eq_find (fns : RealFns) (px py m : ℚ) :
    ∀ l : List TrajectoryPoint,
      interceptScan fns px py m l =
        (l.find? (interceptCond px py m)).map (mkScanAnalysis fns px py m) := by
  intro l
  induction l with
  | nil => rfl
  | cons p rest ih =>
    by_cases h : interceptCond px py m p = true
    · simp [interceptScan, List.find?_cons, h]
    · rw [Bool.not_eq_true] at h
      simp [interceptScan, List.find?_cons, h, ih]

/-- When no sampled point qualifies, the scan finds nothing. -/
theorem interceptScan_eq_none (fns : RealFns) (px py m : ℚ)
    (l : List TrajectoryPoint)
    (h : ∀ p ∈ l, interceptCond px py m p = false) :
    interceptScan fns px py m l = none := by
  rw [interceptScan_eq_find]
  rw [List.find?_eq_none.mpr]
  · rfl
  · intro p hp
    simp [h p hp]

/-- C4 (counterexample): the ball's current position coincides with the
agent (distance 0, within the capture radius of 15), yet the analysis is
not the immediate zero-time full-confidence interception: the scan runs
first and returns the sampled point `(30, 40)` at `t = 10`. -/
theorem capture_radius_precheck_cex :
    jsqrtLe (distSqTo 0 0 btNearAgent.currentPosition.1
      btNearAgent.currentPosition.2) INTERCEPT_RADIUS = true ∧
    (analyzeInterception anyFns 0 0 100 btNearAgent).timeToReach = some 10 ∧
    (analyzeInterception anyFns 0 0 100 btNearAgent).interceptPoint =
      some (some 30, some 40) ∧
    (analyzeInterception anyFns 0 0 100 btNearAgent).confidence ≠ some 1 := by
  refine ⟨by decide, by decide, by decide, by decide⟩

/-- C4 (amended): when the agent is within the capture radius of the
ball's current position and no sampled trajectory point qualifies in the
scan, the analysis is the immediate interception: possible, intercept at
the current position, zero time, zero required speed, full confidence.
(The radius test runs only after the scan, so a qualifying sampled point
takes precedence.) -/
theorem capture_radius_after_scan (fns : RealFns) (px py m : ℚ)
    (bt : BallTrajectory)
    (hscan : ∀ p ∈ bt.predictedPath, interceptCond px py m p = false)
    (hnear : jsqrtLe (distSqTo px py bt.currentPosition.1
      bt.currentPosition.2) INTERCEPT_RADIUS = true) :
    analyzeInterception fns px py m bt =
      { isPossible := true, interceptPoint := some bt.currentPosition,
        timeToReach := some 0, requiredSpeed := some (some 0),
        confidence := some 1 } := by
  unfold analyzeInterception
  rw [interceptScan_eq_none fns px py m _ hscan]
  simp [hnear]

/-- Witness for `capture_radius_after_scan`: empty path, agent 5 away. -/
theorem capture_radius_after_scan_witness :
    analyzeInterception anyFns 0 0 5 btEmptyNear =
      { isPossible := true, interceptPoint := some btEmptyNear.currentPosition,
        timeToReach := some 0, requiredSpeed := some (some 0),
        confidence := some 1 } :=
  capture_radius_after_scan anyFns 0 0 5 btEmptyNear (by decide) (by decide)

/-- C5: (i) the analysis is determined by the first (earliest-time)
sampled point whose required speed is at most the agent's maximum speed —
the boundary case included — and whose distance exceeds the capture
radius: it is reported as possible with that point, its time, the
required speed `distance / t` and confidence `max 0 (1 − required/max)`;
(ii) when no point qualifies and the agent is not within the capture
radius of the current position, the analysis is infeasible with null
fields and zero confidence; (iii) Scenario C: agent at the origin with
maximum speed 5 against the point `(30, 40)` at `t = 10` (distance 50,
required speed exactly 5) is possible with confidence 0. -/
theorem interception_first_qualifying :
    (∀ (fns : RealFns) (px py m : ℚ) (bt : BallTrajectory)
      (p : TrajectoryPoint),
      bt.predictedPath.find? (interceptCond px py m) = some p →
      analyzeInterception fns px py m bt =
        { isPossible := true, interceptPoint := some (p.x, p.y),
          timeToReach := some p.t,
          requiredSpeed :=
            some (jdivQ (jsqrtV fns (distSqTo px py p.x p.y)) p.t),
          confidence := jmax (some 0) (jsub (some 1)
            (jdivQ (jdivQ (jsqrtV fns (distSqTo px py p.x p.y)) p.t) m)) }) ∧
    (∀ (fns : RealFns) (px py m : ℚ) (bt : BallTrajectory),
      (∀ p ∈ bt.predictedPath, interceptCond px py m p = false) →
      jsqrtLe (distSqTo px py bt.currentPosition.1 bt.currentPosition.2)
        INTERCEPT_RADIUS = false →
      analyzeInterception fns px py m bt =
        { isPossible := false, interceptPoint := none, timeToReach := none,
          requiredSpeed := none, confidence := some 0 }) ∧
    (∀ fns : RealFns, fns.sqrt 2500 = 50 →
      analyzeInterception fns 0 0 5 btScenarioC =
        { isPossible := true, interceptPoint := some (some 30, some 40),
          timeToReach := some 10, requiredSpeed := some (some 5),
          confidence := some 0 }) := by
  refine ⟨?_, ?_, ?_⟩
  · intro fns px py m bt p hfind
    unfold analyzeInterception
    rw [interceptScan_eq_find, hfind]
    rfl
  · intro fns px py m bt hscan hfar
    unfold analyzeInterception
    rw [interceptScan_eq_none fns px py m _ hscan]
    simp [hfar]
  · intro fns hs
    have hfind : btScenarioC.predictedPath.find? (interceptCond 0 0 5) =
        some ⟨some 30, some 40, 10, some 0, some 0⟩ := by decide
    unfold analyzeInterception
    rw [interceptScan_eq_find, hfind]
    have hd : distSqTo 0 0 (some 30) (some 40) = some 2500 := by decide
    simp only [Option.map_some, mkScanAnalysis, hd, jsqrtV, Option.map, hs, jdivQ]
    norm_num [jsub, jmax]

/-- Witness for `interception_first_qualifying`: each part applied at a
concrete input. -/
theorem interception_first_qualifying_witness :
    analyzeInterception anyFns 0 0 100 btNearAgent =
      { isPossible := true, interceptPoint := some (some 30, some 40),
        timeToReach := some 10,
        requiredSpeed :=
          some (jdivQ (jsqrtV anyFns (distSqTo 0 0 (some 30) (some 40))) 10),
        confidence := jmax (some 0) (jsub (some 1)
          (jdivQ (jdivQ (jsqrtV anyFns (distSqTo 0 0 (some 30) (some 40))) 10)
            100)) } ∧
    analyzeInterception anyFns 0 0 1 btScenarioC =
      { isPossible := false, interceptPoint := none, timeToReach := none,
        requiredSpeed := none, confidence := some 0 } ∧
    analyzeInterception sqrtScenarioC 0 0 5 btScenarioC =
      { isPossible := true, interceptPoint := some (some 30, some 40),
        timeToReach := some 10, requiredSpeed := some (some 5),
        confidence := some 0 } :=
  ⟨interception_first_qualifying.1 anyFns 0 0 100 btNearAgent
      ⟨some 30, some 40, 10, some 0, some 0⟩ (by decide),
   interception_first_qualifying.2.1 anyFns 0 0 1 btScenarioC
      (by decide) (by decide),
   interception_first_qualifying.2.2 sqrtScenarioC (by decide)⟩

/-- C6: the candidate with `friction = 1.5` and `timeStep = 0` is
rejected with (at least) the two distinct friction and timeStep error
strings; in general `valid` holds exactly when the error list is empty,
and the error list carries exactly one entry per failed rule (no
short-circuiting), in source order. -/
theorem validation_completeness :
    ((validateAlgorithm candBadFrictionTimeStep).valid = false ∧
      "Invalid friction (must be 0-1)" ∈
        (validateAlgorithm candBadFrictionTimeStep).errors ∧
      "Invalid timeStep (must be 0-1)" ∈
        (validateAlgorithm candBadFrictionTimeStep).errors ∧
      ("Invalid friction (must be 0-1)" : String) ≠
        "Invalid timeStep (must be 0-1)") ∧
    (∀ j : Candidate,
      ((validateAlgorithm j).valid = true ↔ (validateAlgorithm j).errors = [])) ∧
    (∀ j : Candidate,
      (validateAlgorithm j).errors.length = (ruleFailures j).count true) := by
  refine ⟨⟨by decide, by decide, by decide, by decide⟩, ?_, ?_⟩
  · intro j
    simp [validateAlgorithm, List.isEmpty_iff]
  · intro j
    unfold validateAlgorithm ruleFailures
    cases j.parameters <;>
      simp [List.count_cons, List.count_append, apply_ite List.length] <;>
      rcases strFieldBad j.name <;> rcases strFieldBad j.version <;>
      rcases strFieldBad j.author <;> rcases j.metadata <;> simp <;> omega

/-- A list read below the length is a number. -/
theorem get?_isSome_of_lt (l : List ℚ) (i : ℕ) (h : i < l.length) :
    (l.get? i).isSome := by
  rw [List.get?_eq_get h]; rfl

/-- Addition of numbers is a number. -/
theorem jadd_isSome (a b : JsNum) (ha : a.isSome) (hb : b.isSome) :
    (jadd a b).isSome := by
  cases a <;> cases b <;> simp_all [jadd]

/-- Multiplication of numbers is a number. -/
theorem jmul_isSome (a b : JsNum) (ha : a.isSome) (hb : b.isSome) :
    (jmul a b).isSome := by
  cases a <;> cases b <;> simp_all [jmul]

/-- Friction evaluation of a well-supplied model at a numeric speed is a
number. -/
theorem calculateCustomFriction_isSome (fns : RealFns) (sq : JsNum)
    (cfg : CustomFriction) (hsq : sq.isSome)
    (h : frictionTotalB (some cfg) = true) :
    (calculateCustomFriction fns sq cfg).isSome := by
  obtain ⟨q, rfl⟩ := Option.isSome_iff_exists.mp hsq
  obtain ⟨ty, coeffs⟩ := cfg
  simp only [frictionTotalB] at h
  unfold calculateCustomFriction
  cases ty <;> simp only [decide_eq_true_eq] at h <;> dsimp only
  · exact jadd_isSome _ _ (get?_isSome_of_lt _ _ h) (jmul_isSome _ _ rfl rfl)
  · exact jadd_isSome _ _ (get?_isSome_of_lt _ _ h) (jmul_isSome _ _ rfl rfl)
  · exact jmul_isSome _ _ (get?_isSome_of_lt _ _ h) rfl
  · split
    · exact get?_isSome_of_lt _ _ (lt_of_lt_of_le (by omega) h)
    · split
      · exact get?_isSome_of_lt _ _ (lt_of_lt_of_le (by omega) h)
      · exact get?_isSome_of_lt _ _ (lt_of_lt_of_le (by omega) h)

/-- The step velocity of a NaN-free state under a well-supplied friction
model is a pair of numbers. -/
theorem stepVelocity_isSome (fns : RealFns)
    (alg : CustomAlgorithmDefinition) (s : SimState) (hs : allSome s)
    (hf : frictionTotalB alg.customFriction = true) :
    (stepVelocity fns alg s).1.isSome ∧ (stepVelocity fns alg s).2.isSome := by
  obtain ⟨hx, hy, hvx, hvy⟩ := hs
  have hsq : (speedSq s.vx s.vy).isSome :=
    jadd_isSome _ _ (jmul_isSome _ _ hvx hvx) (jmul_isSome _ _ hvy hvy)
  have hfc : (match alg.customFriction with
      | some cfg => calculateCustomFriction fns (speedSq s.vx s.vy) cfg
      | none => some alg.parameters.friction).isSome := by
    cases hcf : alg.customFriction with
    | none => rfl
    | some cfg =>
      rw [hcf] at hf
      exact calculateCustomFriction_isSome fns _ cfg hsq hf
  unfold stepVelocity
  cases henv : alg.environment with
  | none =>
    refine ⟨jmul_isSome _ _ hvx (jmul_isSome _ _ hfc rfl),
      jmul_isSome _ _ hvy (jmul_isSome _ _ hfc rfl)⟩
  | some e =>
    dsimp only
    split
    · rename_i hw
      simp only [Bool.and_eq_true] at hw
      exact ⟨jadd_isSome _ _ (jmul_isSome _ _ hvx (jmul_isSome _ _ hfc rfl))
          (jmul_isSome _ _ hw.1.2 rfl),
        jadd_isSome _ _ (jmul_isSome _ _ hvy (jmul_isSome _ _ hfc rfl))
          (jmul_isSome _ _ hw.2 rfl)⟩
    · exact ⟨jmul_isSome _ _ hvx (jmul_isSome _ _ hfc rfl),
        jmul_isSome _ _ hvy (jmul_isSome _ _ hfc rfl)⟩

/-- The per-axis bounce of a numeric position lands in `[0, bound]` and
keeps the velocity numeric. -/
theorem bounceAxis_some_bounds (bound bounce a : ℚ) (vel : JsNum)
    (flag : Bool) (hb : 0 ≤ bound) (hv : vel.isSome) :
    (∃ b, (bounceAxis bound bounce (some a) vel flag).1 = some b ∧
      0 ≤ b ∧ b ≤ bound) ∧
    (bounceAxis bound bounce (some a) vel flag).2.1.isSome := by
  unfold bounceAxis
  split
  · refine ⟨⟨max 0 (min bound a), rfl, le_max_left _ _,
      max_le hb (min_le_left _ _)⟩, jmul_isSome _ _ hv rfl⟩
  · rename_i h
    simp only [Bool.or_eq_true, not_or, jltB, decide_eq_true_eq, not_lt] at h
    exact ⟨⟨a, rfl, h.1, h.2⟩, hv⟩

/-- One custom step from a NaN-free state stays NaN-free and records one
point lying inside the field. -/
theorem stepCustom_allSome_inField (fns : RealFns)
    (alg : CustomAlgorithmDefinition) (s : SimState) (hs : allSome s)
    (hf : frictionTotalB alg.customFriction = true) :
    allSome (stepCustom fns alg s) ∧
    ∃ pt, (stepCustom fns alg s).path = s.path ++ [pt] ∧ inFieldB pt = true := by
  obtain ⟨hvel1, hvel2⟩ := stepVelocity_isSome fns alg s hs hf
  obtain ⟨hx, hy, _, _⟩ := hs
  obtain ⟨a, ha⟩ := Option.isSome_iff_exists.mp
    (jadd_isSome s.x (stepVelocity fns alg s).1 hx hvel1)
  obtain ⟨c, hc⟩ := Option.isSome_iff_exists.mp
    (jadd_isSome s.y (stepVelocity fns alg s).2 hy hvel2)
  obtain ⟨⟨b, hb, hb0, hbw⟩, hbv⟩ := bounceAxis_some_bounds FIELD_WIDTH
    alg.parameters.bounceEnergyLoss a (stepVelocity fns alg s).1
    s.willExitField (by norm_num [FIELD_WIDTH]) hvel1
  obtain ⟨⟨d, hd, hd0, hdh⟩, hdv⟩ := bounceAxis_some_bounds FIELD_HEIGHT
    alg.parameters.bounceEnergyLoss c (stepVelocity fns alg s).2
    (bounceAxis FIELD_WIDTH alg.parameters.bounceEnergyLoss (some a)
      (stepVelocity fns alg s).1 s.willExitField).2.2
    (by norm_num [FIELD_HEIGHT]) hvel2
  constructor
  · unfold stepCustom allSome
    dsimp only
    rw [ha, hc, hb, hd]
    exact ⟨rfl, rfl, hbv, hdv⟩
  · refine ⟨_, rfl, ?_⟩
    unfold inFieldB
    dsimp only
    rw [ha, hc, hb, hd]
    simp only [decide_eq_true_eq]
    exact ⟨hb0, hbw, hd0, hdh⟩

/-- The custom loop keeps the state NaN-free and every recorded point
inside the field. -/
theorem runCustom_inField (fns : RealFns) (alg : CustomAlgorithmDefinition)
    (hf : frictionTotalB alg.customFriction = true) :
    ∀ fuel (s : SimState), allSome s →
      (∀ p ∈ s.path, inFieldB p = true) →
      allSome (runCustom fns alg fuel s) ∧
        ∀ p ∈ (runCustom fns alg fuel s).path, inFieldB p = true := by
  intro fuel
  induction fuel with
  | zero => intro s hs hp; exact ⟨hs, hp⟩
  | succ n ih =>
    intro s hs hp
    unfold runCustom
    split
    · obtain ⟨hs1, pt, hpath, hpt⟩ := stepCustom_allSome_inField fns alg s hs hf
      have hp1 : ∀ p ∈ (stepCustom fns alg s).path, inFieldB p = true := by
        rw [hpath]
        intro p hmem
        rcases List.mem_append.mp hmem with h | h
        · exact hp p h
        · rw [List.mem_singleton.mp h]; exact hpt
      split
      · exact ⟨hs1, hp1⟩
      · exact ih _ hs1 hp1
    · exact ⟨hs, hp⟩

/-- The predicted path of the custom prediction is the loop's recorded
path. -/
theorem predictCustom_path (fns : RealFns) (alg : CustomAlgorithmDefinition)
    (a b c d : JsNum) :
    (predictBallTrajectoryCustom fns alg a b c d).predictedPath =
      (runCustom fns alg (customFuel alg) ⟨a, b, c, d, 0, false, []⟩).path := by
  unfold predictBallTrajectoryCustom
  dsimp only
  split <;> rfl

/-- The clamp of the default bounce (the `if` of `stepDefault` on one
axis) lands in `[0, bound]` and keeps the velocity numeric. -/
theorem clampPair_some_bounds (bound : ℚ) (a : ℚ) (vel w : JsNum)
    (hb : 0 ≤ bound) (hv : vel.isSome) (hw : w.isSome) :
    (∃ b, (if jltB (some a) (some 0) || jltB (some bound) (some a) then
        (jmax (some 0) (jmin (some bound) (some a)), jmul vel w)
      else ((some a : JsNum), vel)).1 = some b ∧ 0 ≤ b ∧ b ≤ bound) ∧
    (if jltB (some a) (some 0) || jltB (some bound) (some a) then
        (jmax (some 0) (jmin (some bound) (some a)), jmul vel w)
      else ((some a : JsNum), vel)).2.isSome := by
  split
  · exact ⟨⟨max 0 (min bound a), rfl, le_max_left _ _,
      max_le hb (min_le_left _ _)⟩, jmul_isSome _ _ hv hw⟩
  · rename_i h
    simp only [Bool.or_eq_true, not_or, jltB, decide_eq_true_eq, not_lt] at h
    exact ⟨⟨a, rfl, h.1, h.2⟩, hv⟩

/-- One default step from a NaN-free state stays NaN-free and records one
point lying inside the field. -/
theorem stepDefault_allSome_inField (dt : ℚ) (s : SimState)
    (hs : allSome s) :
    allSome (stepDefault dt s) ∧
    ∃ pt, (stepDefault dt s).path = s.path ++ [pt] ∧ inFieldB pt = true := by
  obtain ⟨hx, hy, hvx, hvy⟩ := hs
  have hvx1 : (jmul s.vx (some BASE_FRICTION)).isSome := jmul_isSome _ _ hvx rfl
  have hvy1 : (jmul s.vy (some BASE_FRICTION)).isSome := jmul_isSome _ _ hvy rfl
  obtain ⟨a, ha⟩ := Option.isSome_iff_exists.mp
    (jadd_isSome s.x (jmul s.vx (some BASE_FRICTION)) hx hvx1)
  obtain ⟨c, hc⟩ := Option.isSome_iff_exists.mp
    (jadd_isSome s.y (jmul s.vy (some BASE_FRICTION)) hy hvy1)
  obtain ⟨⟨b, hb, hb0, hbw⟩, hbv⟩ := clampPair_some_bounds FIELD_WIDTH a
    (jmul s.vx (some BASE_FRICTION)) (some (-0.8))
    (by norm_num [FIELD_WIDTH]) hvx1 rfl
  obtain ⟨⟨d, hd, hd0, hdh⟩, hdv⟩ := clampPair_some_bounds FIELD_HEIGHT c
    (jmul s.vy (some BASE_FRICTION)) (some (-0.8))
    (by norm_num [FIELD_HEIGHT]) hvy1 rfl
  constructor
  · unfold stepDefault allSome
    dsimp only
    rw [ha, hc, hb, hd]
    exact ⟨rfl, rfl, hbv, hdv⟩
  · refine ⟨_, rfl, ?_⟩
    unfold inFieldB
    dsimp only
    rw [ha, hc, hb, hd]
    simp only [decide_eq_true_eq]
    exact ⟨hb0, hbw, hd0, hdh⟩

/-- The default loop keeps the state NaN-free and every recorded point
inside the field. -/
theorem runDefault_inField (pt dt : ℚ) :
    ∀ fuel (s : SimState), allSome s →
      (∀ p ∈ s.path, inFieldB p = true) →
      allSome (runDefault pt dt fuel s) ∧
        ∀ p ∈ (runDefault pt dt fuel s).path, inFieldB p = true := by
  intro fuel
  induction fuel with
  | zero => intro s hs hp; exact ⟨hs, hp⟩
  | succ n ih =>
    intro s hs hp
    unfold runDefault
    dsimp only
    split
    · obtain ⟨hs1, q, hpath, hq⟩ := stepDefault_allSome_inField dt s hs
      have hp1 : ∀ p ∈ (stepDefault dt s).path, inFieldB p = true := by
        rw [hpath]
        intro p hmem
        rcases List.mem_append.mp hmem with h | h
        · exact hp p h
        · rw [List.mem_singleton.mp h]; exact hq
      split
      · exact ⟨hs1, hp1⟩
      · exact ih _ hs1 hp1
    · exact ⟨hs, hp⟩

/-- The predicted path of the default prediction is the loop's recorded
path. -/
theorem predictDefault_path (a b c d : JsNum) (pt dt : ℚ) :
    (predictBallTrajectoryDefault a b c d pt dt).predictedPath =
      (runDefault pt dt ((Rat.ceil (pt / dt)).toNat)
        ⟨a, b, c, d, 0, false, []⟩).path := by
  unfold predictBallTrajectoryDefault
  dsimp only
  split <;> rfl

/-- C7 (counterexample): the candidate `candPiecewiseTwo` passes
validation (validation never inspects `customFriction`), yet the matching
profile's run records a point whose position is NaN — not inside
`[0, 1000] × [0, 600]` — because the piecewise friction with two
coefficients reads the missing `coefficients[2]`. -/
theorem bounds_invariant_nan_cex :
    (validateAlgorithm candPiecewiseTwo).valid = true ∧
    ∃ p ∈ (predictBallTrajectoryCustom anyFns algPiecewiseTwo
      (some 100) (some 300) (some 10) (some 0)).predictedPath,
      inFieldB p = false := by
  refine ⟨by decide, by decide⟩

/-- C7 (amended): for every initial kinematic state (NaN-free, possibly
outside the field) and every profile whose custom friction model, if
present, supplies enough coefficients to evaluate to a number, every
recorded trajectory point lies inside `[0, 1000] × [0, 600]`; likewise
for the default predictor on every input and horizon. -/
theorem bounds_invariant :
    (∀ (fns : RealFns) (alg : CustomAlgorithmDefinition) (x y vx vy : ℚ),
      frictionTotalB alg.customFriction = true →
      ∀ p ∈ (predictBallTrajectoryCustom fns alg (some x) (some y)
        (some vx) (some vy)).predictedPath, inFieldB p = true) ∧
    (∀ (x y vx vy pt dt : ℚ),
      ∀ p ∈ (predictBallTrajectoryDefault (some x) (some y) (some vx)
        (some vy) pt dt).predictedPath, inFieldB p = true) := by
  constructor
  · intro fns alg x y vx vy hf p hp
    rw [predictCustom_path] at hp
    exact (runCustom_inField fns alg hf (customFuel alg)
      ⟨some x, some y, some vx, some vy, 0, false, []⟩
      ⟨rfl, rfl, rfl, rfl⟩ (by intro q hq; cases hq)).2 p hp
  · intro x y vx vy pt dt p hp
    rw [predictDefault_path] at hp
    exact (runDefault_inField pt dt ((Rat.ceil (pt / dt)).toNat)
      ⟨some x, some y, some vx, some vy, 0, false, []⟩
      ⟨rfl, rfl, rfl, rfl⟩ (by intro q hq; cases hq)).2 p hp

/-- Witness for `bounds_invariant`: the first Scenario A point, and the
first point of a default run started outside the field. -/
theorem bounds_invariant_witness :
    inFieldB ⟨some 105, some 300, 1, some 5, some 0⟩ = true ∧
    inFieldB ⟨some 0, some 300, 1/10, some (376/125), some 0⟩ = true :=
  ⟨bounds_invariant.1 anyFns algScenarioA 100 300 10 0 (by decide)
      ⟨some 105, some 300, 1, some 5, some 0⟩ (by decide),
   bounds_invariant.2 (-1) 300 (-4) 0 (1/10) (1/10)
      ⟨some 0, some 300, 1/10, some (376/125), some 0⟩ (by decide)⟩

/-- Multiplying by NaN yields NaN. -/
theorem jmul_none_right (a : JsNum) : jmul a none = none := by
  cases a <;> rfl

/-- Adding NaN yields NaN. -/
theorem jadd_none_right (a : JsNum) : jadd a none = none := by
  cases a <;> rfl

/-- A square-root comparison against a missing coefficient is false. -/
theorem jsqrtLt_none_right (d : JsNum) : jsqrtLt d none = false := by
  cases d <;> rfl

/-- Under the two-coefficient piecewise profile, both step-velocity
components are NaN: the thresholds `c[3]`, `c[4]` are missing (their
comparisons are false) and the selected `c[2]` is missing, so the
friction coefficient is NaN. -/
theorem stepVelocity_piecewiseTwo (fns : RealFns) (s : SimState) :
    stepVelocity fns algPiecewiseTwo s = (none, none) := by
  obtain ⟨sx, sy, svx, svy, st, sw, sp⟩ := s
  cases sx <;> cases sy <;> cases svx <;> cases svy <;> rfl

/-- Under the two-coefficient piecewise profile, one step turns the whole
kinematic state into NaN and records a NaN point (the bounce tests are
false on NaN, so no clamping happens). -/
theorem stepCustom_piecewiseTwo (fns : RealFns) (s : SimState) :
    stepCustom fns algPiecewiseTwo s =
      { x := none, y := none, vx := none, vy := none,
        t := s.t + algPiecewiseTwo.parameters.timeStep,
        willExitField := s.willExitField,
        path := s.path ++
          [⟨none, none, s.t + algPiecewiseTwo.parameters.timeStep,
            none, none⟩] } := by
  unfold stepCustom
  rw [stepVelocity_piecewiseTwo]
  dsimp only
  rw [jadd_none_right, jadd_none_right]
  rfl

/-- C9 (counterexample): with the two-coefficient piecewise profile
stored, the wrapper's prediction is not the default algorithm's
prediction — no exception is thrown, the custom NaN-propagating
trajectory is returned as-is (its single recorded point has NaN
coordinates), so "degrading to the default algorithm" is false. -/
theorem piecewise_two_no_fallback_cex :
    predictBallTrajectoryWrapper anyFns (some algPiecewiseTwo)
        (some 100) (some 300) (some 10) (some 0) 3 (1/10) ≠
      predictBallTrajectoryWrapper anyFns none
        (some 100) (some 300) (some 10) (some 0) 3 (1/10) ∧
    ((predictBallTrajectoryWrapper anyFns (some algPiecewiseTwo)
        (some 100) (some 300) (some 10) (some 0) 3 (1/10)).predictedPath.map
      (fun p => p.x)) = [none] := by
  refine ⟨by decide, by decide⟩

/-- C9 (amended): the two-coefficient piecewise profile does not crash
the simulator: for every initial ball state the wrapper's prediction call
returns a trajectory — with at least one recorded point, whose position
and velocity are NaN — rather than propagating an exception or falling
back to the default algorithm. -/
theorem piecewise_two_returns_trajectory (fns : RealFns)
    (x y vx vy : JsNum) (pt dt : ℚ) :
    (predictBallTrajectoryWrapper fns (some algPiecewiseTwo)
        x y vx vy pt dt).predictedPath.head? =
      some ⟨none, none, algPiecewiseTwo.parameters.timeStep, none, none⟩ := by
  show (predictBallTrajectoryCustom fns algPiecewiseTwo x y vx vy).predictedPath.head? = _
  rw [predictCustom_path]
  have hfuel : customFuel algPiecewiseTwo = 1 := by decide
  rw [hfuel]
  unfold runCustom
  rw [if_pos (show (0:ℚ) < algPiecewiseTwo.parameters.maxPredictionTime by norm_num [algPiecewiseTwo])]
  dsimp only
  rw [show runCustom fns algPiecewiseTwo 0
      (stepCustom fns algPiecewiseTwo ⟨x, y, vx, vy, 0, false, []⟩) =
      stepCustom fns algPiecewiseTwo ⟨x, y, vx, vy, 0, false, []⟩ from rfl]
  rw [ite_self, stepCustom_piecewiseTwo fns ⟨x, y, vx, vy, 0, false, []⟩]
  simp

/-- C10: both predictors always return a non-null landing position; when
the predicted path is empty (for example a non-positive horizon), the
landing position is the initial ball position and the time to stop is 0 —
even though the `BallTrajectory` type declares `landingPosition`
nullable. -/
theorem landing_never_null :
    (∀ (fns : RealFns) (alg : CustomAlgorithmDefinition) (a b c d : JsNum),
      0 < alg.parameters.timeStep →
      (∃ q, (predictBallTrajectoryCustom fns alg a b c d).landingPosition =
        some q) ∧
      ((predictBallTrajectoryCustom fns alg a b c d).predictedPath = [] →
        (predictBallTrajectoryCustom fns alg a b c d).landingPosition =
          some (a, b) ∧
        (predictBallTrajectoryCustom fns alg a b c d).timeToStop = 0)) ∧
    (∀ (a b c d : JsNum) (pt dt : ℚ), 0 < dt →
      (∃ q, (predictBallTrajectoryDefault a b c d pt dt).landingPosition =
        some q) ∧
      ((predictBallTrajectoryDefault a b c d pt dt).predictedPath = [] →
        (predictBallTrajectoryDefault a b c d pt dt).landingPosition =
          some (a, b) ∧
        (predictBallTrajectoryDefault a b c d pt dt).timeToStop = 0)) := by
  constructor
  · intro fns alg a b c d hdt
    unfold predictBallTrajectoryCustom
    dsimp only
    cases hgl : (runCustom fns alg (customFuel alg)
        ⟨a, b, c, d, 0, false, []⟩).path.getLast? with
    | some p =>
      refine ⟨⟨(p.x, p.y), rfl⟩, fun hemp => ?_⟩
      rw [show (runCustom fns alg (customFuel alg)
          ⟨a, b, c, d, 0, false, []⟩).path = [] from hemp] at hgl
      exact Option.noConfusion hgl
    | none => exact ⟨⟨(a, b), rfl⟩, fun _ => ⟨rfl, rfl⟩⟩
  · intro a b c d pt dt hdt
    unfold predictBallTrajectoryDefault
    dsimp only
    cases hgl : (runDefault pt dt ((Rat.ceil (pt / dt)).toNat)
        ⟨a, b, c, d, 0, false, []⟩).path.getLast? with
    | some p =>
      refine ⟨⟨(p.x, p.y), rfl⟩, fun hemp => ?_⟩
      rw [show (runDefault pt dt ((Rat.ceil (pt / dt)).toNat)
          ⟨a, b, c, d, 0, false, []⟩).path = [] from hemp] at hgl
      exact Option.noConfusion hgl
    | none => exact ⟨⟨(a, b), rfl⟩, fun _ => ⟨rfl, rfl⟩⟩

/-- Witness for `landing_never_null`: a negative default horizon yields
an empty path while the landing position is the initial ball position
with zero time to stop; the custom run has some landing position. -/
theorem landing_never_null_witness :
    ((predictBallTrajectoryDefault (some 1) (some 2) (some 3) (some 4)
        (-1) (1/10)).landingPosition = some (some 1, some 2) ∧
      (predictBallTrajectoryDefault (some 1) (some 2) (some 3) (some 4)
        (-1) (1/10)).timeToStop = 0) ∧
    (∃ q, (predictBallTrajectoryCustom anyFns algScenarioA
        (some 100) (some 300) (some 10) (some 0)).landingPosition = some q) :=
  ⟨(landing_never_null.2 (some 1) (some 2) (some 3) (some 4) (-1) (1/10)
      (by norm_num)).2 (by decide),
   (landing_never_null.1 anyFns algScenarioA (some 100) (some 300)
      (some 10) (some 0) (by norm_num [algScenarioA])).1⟩

/-- Witness for `scenarioA_speeds_and_points` at a fixed interpretation. -/
theorem scenarioA_speeds_and_points_witness :
    (predictBallTrajectoryCustom anyFns algScenarioA
        (some 100) (some 300) (some 10) (some 0)).predictedPath.length = 6 ∧
    (predictBallTrajectoryCustom anyFns algScenarioA
        (some 100) (some 300) (some 10) (some 0)).predictedPath.map
          (fun p => (p.vx, p.vy)) =
      [(some 5, some 0), (some (5/2), some 0), (some (5/4), some 0),
       (some (5/8), some 0), (some (5/16), some 0), (some (5/32), some 0)] ∧
    some 10 :: ((predictBallTrajectoryCustom anyFns algScenarioA
        (some 100) (some 300) (some 10) (some 0)).predictedPath.dropLast.map
          (fun p => p.vx)) =
      [some 10, some 5, some (5/2), some (5/4), some (5/8), some (5/16)] :=
  scenarioA_speeds_and_points anyFns

/-- Witness for `scenarioB_bounce` at a fixed interpretation. -/
theorem scenarioB_bounce_witness :
    (predictBallTrajectoryCustom anyFns algScenarioB
        (some 998) (some 300) (some 8) (some 0)).predictedPath =
      [⟨some 1000, some 300, 1, some (-(32/5)), some 0⟩] :=
  scenarioB_bounce anyFns

/-- Witness for `piecewise_two_returns_trajectory` at a fixed input. -/
theorem piecewise_two_returns_trajectory_witness :
    (predictBallTrajectoryWrapper anyFns (some algPiecewiseTwo)
        (some 0) (some 0) (some 0) (some 0) 3 (1/10)).predictedPath.head? =
      some ⟨none, none, algPiecewiseTwo.parameters.timeStep, none, none⟩ :=
  piecewise_two_returns_trajectory anyFns (some 0) (some 0) (some 0) (some 0)
    3 (1/10)

end MxEgg
